import Mathlib

/-!
Verification of the review-scraping edge functions
(`supabase/functions/scrape-reviews/index.ts` and
`supabase/functions/send-email/index.ts`).

The extraction-and-normalization pipeline is embedded shallowly:
each piece of pure post-processing logic from the source becomes a Lean
function; the DOM selector results feed in as fields of a `Card` record,
and the page/pagination control flow becomes explicit recursion over an
oracle of page results.  JavaScript string semantics (truthiness of the
empty string, `trim`, `replace(/\s+/g, c)`, `toLowerCase`,
`parseFloat`, `startsWith`) are modelled over ASCII character lists,
matching the behaviour of the source on the data it handles.
-/

/-- The whitespace class used by the source's regexes (`\s`) and `trim`,
restricted to the ASCII subset. -/
def jsWhitespace (c : Char) : Bool :=
  c = ' ' || c = '\t' || c = '\n' || c = '\r' || c = '\x0b' || c = '\x0c'

/-- `String.prototype.trim`: drop whitespace from both ends (char-list level). -/
def jsTrimL (l : List Char) : List Char :=
  ((l.dropWhile jsWhitespace).reverse.dropWhile jsWhitespace).reverse

/-- `String.prototype.trim` on strings. -/
def jsTrim (s : String) : String :=
  ⟨jsTrimL s.data⟩

/-- `str.replace(/\s+/g, r)` for a one-character replacement `r`:
every maximal run of whitespace becomes the single character `r`. -/
def collapseWsWith (r : Char) : List Char → List Char
  | [] => []
  | [c] => if jsWhitespace c then [r] else [c]
  | c :: d :: cs =>
    if jsWhitespace c then
      if jsWhitespace d then collapseWsWith r (d :: cs)
      else r :: collapseWsWith r (d :: cs)
    else c :: collapseWsWith r (d :: cs)

/-- ASCII `toLowerCase` on one character. -/
def jsCharLower (c : Char) : Char :=
  if 'A' ≤ c ∧ c ≤ 'Z' then Char.ofNat (c.toNat + 32) else c

/-- `String.prototype.toLowerCase` (ASCII range). -/
def jsToLower (s : String) : String :=
  ⟨s.data.map jsCharLower⟩

/-- `` `${name}_${date}`.replace(/\s+/g, '_').toLowerCase() `` — the
identifier-derivation expression of `scrapeSinglePage` (line 158). -/
def mkUniqueId (name date : String) : String :=
  jsToLower ⟨collapseWsWith '_' (name.data ++ '_' :: date.data)⟩

/-- JavaScript truthiness of a nullable string: `null` and `""` are falsy. -/
def jsTruthy : Option String → Bool
  | none => false
  | some s => s ≠ ""

/-- The identity step of `scrapeSinglePage` (lines 157–161): the
`unique_id` field is set iff both `reviewer_name` and `written_date`
are truthy, to the normalized concatenation. -/
def uniqueIdOf (name written : Option String) : Option String :=
  if jsTruthy name && jsTruthy written then
    some (mkUniqueId (name.getD "") (written.getD ""))
  else
    none

example : uniqueIdOf (some "Jane Doe") (some "June 2024") = some "jane_doe_june_2024" := by
  decide

example : uniqueIdOf (some "") (some "June 2024") = none := by decide
example : uniqueIdOf (some "Jane Doe") none = none := by decide

/-- Post-processing of `getText` (lines 31–41): if the selector missed,
`null`; otherwise the element's text content trimmed, with an empty
result turned into `null` by `return text || null`. -/
def getTextPost : Option String → Option String
  | none => none
  | some t => let t' := jsTrim t; if t' = "" then none else some t'

/-- Post-processing of `getAttr` (lines 43–46): `selected?.getAttribute(attr) || null`
— a missing element/attribute or an empty value yields `null`. -/
def getAttrPost : Option String → Option String
  | none => none
  | some v => if v = "" then none else some v

/-- The base origin prefixed to site-relative links (line 29). -/
def TRIPADVISOR_BASE_URL : String := "https://www.tripadvisor.com"

/-- `href.startsWith("/")`: the first character is a path separator. -/
def startsWithSlash (h : String) : Bool :=
  match h.data with
  | '/' :: _ => true
  | _ => false

/-- The link rewriting expression used for `reviewer_profile` (line 84)
and `review_of_link` (line 136):
`href ? (href.startsWith("/") ? base + href : href) : null`. -/
def jsHrefNormalize (href : Option String) : Option String :=
  match href with
  | none => none
  | some h =>
    if h = "" then none
    else if startsWithSlash h then some (TRIPADVISOR_BASE_URL ++ h)
    else some h

example : jsHrefNormalize (some "/Profile/janedoe") =
    some "https://www.tripadvisor.com/Profile/janedoe" := by decide
example : jsHrefNormalize (some "https://elsewhere.example/x") =
    some "https://elsewhere.example/x" := by decide
example : jsHrefNormalize none = none := rfl

/-- A JavaScript `number` as it appears in the `rating` field: either a
rational value or `NaN` (`parseFloat` on garbage). -/
inductive JsFloat where
  | nan : JsFloat
  | val : ℚ → JsFloat
deriving DecidableEq

/-- Numeric value of a digit list read in base 10. -/
def digitsVal (l : List Char) : ℕ :=
  l.foldl (fun acc c => 10 * acc + (c.toNat - '0'.toNat)) 0

/-- The digits-and-scale reading that `parseFloat` performs on a string
over digits and dots — the only strings the rating capture group
`([\d\.]+)` can produce.  JavaScript parses the longest prefix of the
form `digits [ "." digits ]`: the result is `some (mantissa, k)` where
the parsed value is `mantissa / 10 ^ k`; it is `none` (NaN) when no
digit is consumed (e.g. `parseFloat(".")`), and parsing stops at a
second dot (`parseFloat("1.2.3") = 1.2`). -/
def parseMantissa (l : List Char) : Option (ℕ × ℕ) :=
  let intPart := l.takeWhile Char.isDigit
  let rest := l.drop intPart.length
  let fracPart :=
    match rest with
    | c :: r => if c = '.' then r.takeWhile Char.isDigit else []
    | [] => []
  if intPart = [] ∧ fracPart = [] then none
  else some (digitsVal (intPart ++ fracPart), fracPart.length)

/-- `parseFloat` on a digits-and-dots string, as a `JsFloat`. -/
def jsParseFloatDD (l : List Char) : JsFloat :=
  match parseMantissa l with
  | none => JsFloat.nan
  | some (n, k) => JsFloat.val ((n : ℚ) / (10 : ℚ) ^ k)

example : parseMantissa "5".data = some (5, 0) := by decide
example : parseMantissa ".".data = none := by decide
example : parseMantissa "4.5".data = some (45, 1) := by decide
example : parseMantissa "1.2.3".data = some (12, 1) := by decide
example : jsParseFloatDD ".".data = JsFloat.nan := by
  have h : parseMantissa ".".data = none := by decide
  simp [jsParseFloatDD, h]

/-- Characters matched by the rating regex's capture class `[\d\.]`. -/
def isDigitOrDot (c : Char) : Bool :=
  c.isDigit || c = '.'

/-- Leftmost match of `/([\d\.]+) of/` against a character list,
returning the capture group.  A match at a position is a maximal run of
digit/dot characters followed by the literal `" of"`; scanning positions
left to right and taking the first success reproduces the regex engine's
leftmost-match rule (backtracking to a shorter run never helps, because
the character after a shorter run is again a digit or dot). -/
def findRatingCapture : List Char → Option (List Char)
  | [] => none
  | c :: cs =>
    if isDigitOrDot c ∧ " of".data.isPrefixOf ((c :: cs).dropWhile isDigitOrDot) then
      some ((c :: cs).takeWhile isDigitOrDot)
    else
      findRatingCapture cs

example : findRatingCapture "5.0 of 5 bubbles".data = some "5.0".data := by decide
example : findRatingCapture "no bubbles here".data = none := by decide

/-- Rating extraction (lines 100–111).  The argument mirrors the DOM
facts: `none` if the `svg[class*='UctUV']` element is absent, otherwise
`some rawTitle` where `rawTitle` is the raw text content of its `title`
element (`none` again if that element is absent).  The regex match and
`parseFloat` follow; a match whose capture does not parse yields
`JsFloat.nan`, not `none`. -/
def ratingOf (svg : Option (Option String)) : Option JsFloat :=
  match svg with
  | none => none
  | some rawTitle =>
    match getTextPost rawTitle with
    | none => none
    | some t =>
      match findRatingCapture t.data with
      | none => none
      | some cap => some (jsParseFloatDD cap)

example : ratingOf (some (some "5.0 of 5 bubbles")) = some (JsFloat.val 5) := by
  have h1 : ratingOf (some (some "5.0 of 5 bubbles")) = some (jsParseFloatDD "5.0".data) := rfl
  have h2 : parseMantissa "5.0".data = some (50, 1) := by decide
  rw [h1, jsParseFloatDD, h2]
  norm_num

example : ratingOf none = none := rfl

/-- Case-insensitive prefix test: `pat` (given lower-cased) against the
lower-cased head of `s`. -/
def ciHasPre (pat s : List Char) : Bool :=
  pat.isPrefixOf (s.map jsCharLower)

/-- One step of the alternation `/Reviewed |Written /i` at the current
position: if the text starts (case-insensitively) with `"Reviewed "`
(9 characters) or `"Written "` (8 characters), return the remainder. -/
def rwAt (s : List Char) : Option (List Char) :=
  if ciHasPre "reviewed ".data s then some (s.drop 9)
  else if ciHasPre "written ".data s then some (s.drop 8)
  else none

/-- `str.replace(/Reviewed |Written /i, '')`: remove the leftmost
(case-insensitive) occurrence of `"Reviewed "` or `"Written "`;
`none` when the regex does not match anywhere (so `str.match(...)` is
`null`). -/
def removeFirstRW : List Char → Option (List Char)
  | [] => none
  | c :: cs =>
    match rwAt (c :: cs) with
    | some rest => some rest
    | none => (removeFirstRW cs).map (fun l => c :: l)

example : removeFirstRW "Reviewed June 2024".data = some "June 2024".data := by decide
example : removeFirstRW "a Reviewed b".data = some "a b".data := by decide
example : removeFirstRW "nothing here".data = none := by decide

/-- The written-date fallback branch (lines 148–153): the `getText`
result for `span.teHYY._R.Me.Z.bToff` is used only when it is truthy and
`.match(/Reviewed |Written /i)` succeeds; the stored date is the text
with the first matched occurrence removed, then trimmed. -/
def fallbackWrittenDate (txt : Option String) : Option String :=
  match txt with
  | none => none
  | some t =>
    if t = "" then none
    else
      match removeFirstRW t.data with
      | some stripped => some (jsTrim ⟨stripped⟩)
      | none => none

example : fallbackWrittenDate (some "Reviewed June 2024") = some "June 2024" := by decide
example : fallbackWrittenDate (some "no date words") = none := by decide

/-- `tripInfoText.split("•")` (line 117), at the character-list level. -/
def splitOnBullet : List Char → List (List Char)
  | [] => [[]]
  | c :: cs =>
    if c = '•' then [] :: splitOnBullet cs
    else
      match splitOnBullet cs with
      | [] => [[c]]
      | p :: ps => (c :: p) :: ps

example : (splitOnBullet "May 2024 • Friends".data).map (fun l => jsTrimL l) =
    ["May 2024".data, "Friends".data] := by decide

/-- One review record, as built by `scrapeSinglePage` (lines 9–27).
`rating` is `Option JsFloat` because the source can assign `NaN` there;
every other extracted field is a nullable string. -/
structure Review where
  reviewer_name : Option String
  reviewer_profile : Option String
  avatar_url : Option String
  contributions : Option String
  helpful_votes : Option String
  rating : Option JsFloat
  review_title : Option String
  review_date : Option String
  trip_type : Option String
  review_text : Option String
  review_of : Option String
  review_of_link : Option String
  written_date : Option String
  disclaimer : Option String
  unique_id : Option String
  source_url : String
  scraped_at : String
deriving DecidableEq

/-- The DOM facts about one `div[data-automation="reviewCard"]`
container that the extraction code of `scrapeSinglePage` (lines 76–167)
consumes: for each selector, whether it matched and the raw text /
attribute it produced.  Text fields hold the raw `textContent` (the
source's `trim` / truthiness post-processing is applied by
`extractReview`). -/
structure Card where
  /-- `div.QIHsu.Zb a, span.JAZVu.sVnOO > a`: raw text content and `href` attribute. -/
  reviewerTag : Option (String × Option String)
  /-- Raw text content of the fallback name locator. -/
  fallbackNameText : Option String
  /-- `src` attribute of `img[src]`. -/
  avatarSrc : Option String
  /-- Raw text content of the contributions locator. -/
  contributionsText : Option String
  /-- `some inner` when the helpful-vote button exists; `inner` is the raw
  text of its inner span (or `none` when that span is absent). -/
  helpfulButton : Option (Option String)
  /-- `some title` when `svg[class*='UctUV']` exists; `title` is the raw
  text of its `title` element (or `none` when absent). -/
  ratingSvg : Option (Option String)
  /-- Raw text content of the review-title locator. -/
  reviewTitleText : Option String
  /-- Raw text content of `div.RpeCd` (trip date / trip type blob). -/
  tripInfoText : Option String
  /-- Raw text content of the review-body locator. -/
  fullTextRaw : Option String
  /-- Reviewed-subject anchor: raw text content and `href` attribute. -/
  reviewOfTag : Option (String × Option String)
  /-- `some texts` when `div.TreSq` exists; `texts` is the list of raw text
  contents of its `div[class*='biGQs'][class*='pZUbB']` children. -/
  treSq : Option (List String)
  /-- Raw text content of `span.teHYY._R.Me.Z.bToff`. -/
  writtenDateFallbackRaw : Option String
deriving DecidableEq

/-- Trip date / trip type extraction (lines 115–123): split the blob on
`"•"`, trim each part; the first part with `|| null`, the second part
only when present (no truthiness check on it). -/
def tripInfoOf (blob : Option String) : Option String × Option String :=
  match getTextPost blob with
  | none => (none, none)
  | some t =>
    let parts := (splitOnBullet t.data).map (fun l => jsTrimL l)
    let p0 := parts.headD []
    ((if p0 = [] then none else some ⟨p0⟩),
     (match parts.drop 1 with
      | p :: _ => some ⟨p⟩
      | [] => none))

/-- Written date / disclaimer extraction (lines 142–155): prefer the
`div.TreSq` container's first two info divs (trimmed, no truthiness
check), else the regex fallback with disclaimer `null`. -/
def writtenDateDisclaimerOf (treSq : Option (List String)) (fallbackRaw : Option String) :
    Option String × Option String :=
  match treSq with
  | some infoTexts =>
    ((infoTexts.get? 0).map jsTrim, (infoTexts.get? 1).map jsTrim)
  | none => (fallbackWrittenDate (getTextPost fallbackRaw), none)

/-- The Field Extractor + Identity step applied to one card
(`scrapeSinglePage`, lines 76–166): builds the `Review` record exactly
as the loop body does, stamping `source_url` and `scraped_at`. -/
def extractReview (card : Card) (sourceUrl now : String) : Review :=
  let nameProf : Option String × Option String :=
    match card.reviewerTag with
    | some (txt, href) => (some (jsTrim txt), jsHrefNormalize href)
    | none => (getTextPost card.fallbackNameText, none)
  let ofPair : Option String × Option String :=
    match card.reviewOfTag with
    | some (txt, href) => (some (jsTrim txt), jsHrefNormalize href)
    | none => (none, none)
  let trip := tripInfoOf card.tripInfoText
  let wd := writtenDateDisclaimerOf card.treSq card.writtenDateFallbackRaw
  { reviewer_name := nameProf.1
    reviewer_profile := nameProf.2
    avatar_url := getAttrPost card.avatarSrc
    contributions := getTextPost card.contributionsText
    helpful_votes :=
      match card.helpfulButton with
      | some innerRaw => getTextPost innerRaw
      | none => none
    rating := ratingOf card.ratingSvg
    review_title := getTextPost card.reviewTitleText
    review_date := trip.1
    trip_type := trip.2
    review_text :=
      (getTextPost card.fullTextRaw).map (fun t => jsTrim ⟨collapseWsWith ' ' t.data⟩)
    review_of := ofPair.1
    review_of_link := ofPair.2
    written_date := wd.1
    disclaimer := wd.2
    unique_id := uniqueIdOf nameProf.1 wd.1
    source_url := sourceUrl
    scraped_at := now }

/-- The per-page loop of `scrapeSinglePage` (lines 76–168): every card
found in the parsed document yields exactly one record, appended in
document order — no record is dropped at extraction time. -/
def processCards (cards : List Card) (sourceUrl now : String) : List Review :=
  cards.map (fun c => extractReview c sourceUrl now)

/-- The sink write batch (line 271): `allScrapedReviews.filter(r => r.unique_id)`. -/
def reviewsToUpsert (allScraped : List Review) : List Review :=
  allScraped.filter (fun r => jsTruthy r.unique_id)

/-- The excluded-record count (line 272):
`allScrapedReviews.length - reviewsToUpsert.length`. -/
def reviewsWithoutIdCount (allScraped : List Review) : ℕ :=
  allScraped.length - (reviewsToUpsert allScraped).length

/-- The fixed page cap (line 227). -/
def MAX_PAGES : ℕ := 5

/-- Head of the URL template up to `{PAGINATION_TOKEN}` (line 222, with
the city / attraction constants of lines 218–221 interpolated). -/
def urlHead : String :=
  "https://www.tripadvisor.com/Attraction_Review-g60763-d9769852-Reviews-"

/-- Tail of the URL template after `{PAGINATION_TOKEN}`. -/
def urlTail : String :=
  "-Manhattan_Mark_Tours-New_York_City_New_York.html"

/-- The fetch target for a given offset (lines 232–233): the template
with `{PAGINATION_TOKEN}` replaced by `""` at offset `0` and by
`or<skip>` otherwise. -/
def pageUrlFor (skip : ℕ) : String :=
  urlHead ++ (if skip = 0 then "" else "or" ++ toString skip) ++ urlTail

/-- One observed iteration of the pagination loop: the state at the
fetch (`pageNum`, `skip`, target `url`), the page result, and whether
the politeness delay was taken after this page (line 258–260). -/
structure IterRec where
  pageNum : ℕ
  skip : ℕ
  url : String
  records : List Review
  delayedAfter : Bool
deriving DecidableEq

/-- The pagination loop of the serve handler (lines 231–261), as a trace
of iterations.  `fetch i` is the page result of the `i`-th fetch
(`goto` + `scrapeSinglePage`); `fuel` is `MAX_PAGES - pageNum`, so the
`while (pageNum < MAX_PAGES)` guard is `fuel = 0`.  A page with zero
records on a non-first page breaks out of the loop before updating
`skip` and `pageNum` (lines 241–244); otherwise the result is
accumulated, `skip` advances by the number of records returned, and the
`setTimeout` delay fires iff another page remains **and** this page
returned at least one record (line 258). -/
def scrapeIters (fetch : ℕ → List Review) : ℕ → ℕ → ℕ → List IterRec
  | 0, _, _ => []
  | fuel + 1, pageNum, skip =>
    let recs := fetch pageNum
    let url := pageUrlFor skip
    if recs.length = 0 ∧ 0 < pageNum then
      [⟨pageNum, skip, url, recs, false⟩]
    else
      ⟨pageNum, skip, url, recs, decide (pageNum + 1 < MAX_PAGES) && decide (0 < recs.length)⟩ ::
        scrapeIters fetch fuel (pageNum + 1) (skip + recs.length)

/-- A full run of the pagination driver starting from
`pageNum = 0`, `skip = 0` (lines 225–231). -/
def scrapeRun (fetch : ℕ → List Review) : List IterRec :=
  scrapeIters fetch MAX_PAGES 0 0

/-- `allScrapedReviews` after the loop (line 251): the concatenation of
all page results in the trace (the breaking page contributes `[]`). -/
def allScrapedOf (fetch : ℕ → List Review) : List Review :=
  ((scrapeRun fetch).map (fun it => it.records)).flatten

/-- The body of an HTTP `Response` as constructed by the two functions:
`null`, a plain string, or `JSON.stringify` of an object literal
(represented as its field list, values stringified). -/
inductive Body where
  | empty : Body
  | text : String → Body
  | jsonObj : List (String × String) → Body
deriving DecidableEq

/-- An HTTP response: status and body, plus the headers passed to the
`Response` constructor. -/
structure HttpResponse where
  status : ℕ
  body : Body
  headers : List (String × String)
deriving DecidableEq

/-- Whether a body is a JSON object carrying a `message` or `error` field. -/
def isJsonMessageOrError : Body → Bool
  | Body.jsonObj fields => fields.any (fun f => f.1 = "message" || f.1 = "error")
  | _ => false

/-- The outcome of one scrape-pipeline run, abstracting the effectful
steps of the serve handler (lines 182–310).  `fatal` is any error
reaching the `catch` (line 305): session-create / connect failure,
navigation failure, or the rethrown upsert error; its payload is
`err.message` (empty when absent). -/
inductive ScrapeOutcome where
  | missingSupabaseEnv : ScrapeOutcome
  | missingBrowserbaseEnv : ScrapeOutcome
  | fatal : String → ScrapeOutcome
  | noReviews : ScrapeOutcome
  | noneIdentifiable : ScrapeOutcome
  | success : ℕ → ℕ → ℕ → ScrapeOutcome
deriving DecidableEq

/-- `Content-Type: application/json` alone (lines 188, 191). -/
def jsonHdr : List (String × String) := [("Content-Type", "application/json")]

/-- JSON content type plus the permissive CORS origin (lines 266–309). -/
def jsonCorsHdr : List (String × String) :=
  [("Content-Type", "application/json"), ("Access-Control-Allow-Origin", "*")]

/-- The scrape-reviews serve handler's response selection (lines
171–317): preflight short-circuit, env checks, then one of the pipeline
outcomes. -/
def scrapeHandler (method : String) (o : ScrapeOutcome) : HttpResponse :=
  if method = "OPTIONS" then
    { status := 200, body := Body.empty,
      headers := [("Access-Control-Allow-Origin", "*"),
                  ("Access-Control-Allow-Methods", "POST, GET, OPTIONS"),
                  ("Access-Control-Allow-Headers", "Content-Type, Authorization, apikey, x-client-info")] }
  else
    match o with
    | ScrapeOutcome.missingSupabaseEnv =>
      { status := 500, body := Body.jsonObj [("error", "Supabase URL or Anon Key not provided.")],
        headers := jsonHdr }
    | ScrapeOutcome.missingBrowserbaseEnv =>
      { status := 500, body := Body.jsonObj [("error", "Browserbase API Key or Project ID not provided.")],
        headers := jsonHdr }
    | ScrapeOutcome.fatal msg =>
      { status := 500,
        body := Body.jsonObj [("error", if msg = "" then "An unexpected error occurred." else msg)],
        headers := jsonCorsHdr }
    | ScrapeOutcome.noReviews =>
      { status := 200,
        body := Body.jsonObj [("message", "No reviews found or scraping failed overall."),
                              ("details", "No reviews were collected from TripAdvisor.")],
        headers := jsonCorsHdr }
    | ScrapeOutcome.noneIdentifiable =>
      { status := 200,
        body := Body.jsonObj [("message", "No reviews with valid unique identifiers to process.")],
        headers := jsonCorsHdr }
    | ScrapeOutcome.success scraped upserted accepted =>
      { status := 200,
        body := Body.jsonObj [("message", "Scraping and Supabase processing completed."),
                              ("scrapedCount", toString scraped),
                              ("processedForUpsertCount", toString upserted),
                              ("supabaseResultCount", toString accepted)],
        headers := jsonCorsHdr }

/-- The outcome of one send-email run (`send-email/index.ts`):
the SendGrid call succeeded, returned a non-ok status (whose body text
is echoed), or the body parse / fetch threw. -/
inductive EmailOutcome where
  | ok : EmailOutcome
  | sendgridNotOk : String → EmailOutcome
  | thrown : EmailOutcome
deriving DecidableEq

/-- CORS headers shared by all send-email responses. -/
def emailHdr : List (String × String) :=
  [("Access-Control-Allow-Origin", "*"),
   ("Access-Control-Allow-Headers", "Content-Type, Authorization")]

/-- The send-email serve handler's response selection (lines 3–70 of
`send-email/index.ts`): all non-preflight bodies are plain text. -/
def sendEmailHandler (method : String) (o : EmailOutcome) : HttpResponse :=
  if method = "OPTIONS" then
    { status := 200, body := Body.empty,
      headers := [("Access-Control-Allow-Origin", "*"),
                  ("Access-Control-Allow-Methods", "POST, OPTIONS"),
                  ("Access-Control-Allow-Headers", "Content-Type, Authorization")] }
  else
    match o with
    | EmailOutcome.ok => { status := 200, body := Body.text "Email sent successfully", headers := emailHdr }
    | EmailOutcome.sendgridNotOk errText => { status := 500, body := Body.text errText, headers := emailHdr }
    | EmailOutcome.thrown => { status := 500, body := Body.text "Internal server error", headers := emailHdr }

/-- Observable resource / response events of one scrape-reviews
invocation, in order. -/
inductive RunEvent where
  | sessionCreated : RunEvent
  | connected : RunEvent
  | browserClosed : RunEvent
  | responded : ℕ → RunEvent
deriving DecidableEq

/-- How far the effectful body of the serve handler got, for the
resource-lifetime analysis (lines 194–317).  After a successful
`connectOverCDP`, the body either throws (navigation failure or the
rethrown upsert error) or returns one of the normal responses; parse
failures and empty pages are absorbed before this point
(`scrapeSinglePage` returns `[]`). -/
inductive RunScript where
  | preflight : RunScript
  | envMissing : RunScript
  | createFail : RunScript
  | connectFail : RunScript
  | bodyThrows : RunScript
  | bodyNoReviews : RunScript
  | bodyNoneIdentifiable : RunScript
  | bodySuccess : RunScript
deriving DecidableEq

/-- The `finally` block (lines 311–317): close the Playwright browser
iff the `playwrightBrowser` variable was assigned (close errors are
swallowed by `.catch`). -/
def finallyEvents (browserAssigned : Bool) : List RunEvent :=
  if browserAssigned then [RunEvent.browserClosed] else []

/-- Status of the response the body / catch produces for each script. -/
def scriptStatus : RunScript → ℕ
  | RunScript.preflight => 200
  | RunScript.envMissing => 500
  | RunScript.createFail => 500
  | RunScript.connectFail => 500
  | RunScript.bodyThrows => 500
  | RunScript.bodyNoReviews => 200
  | RunScript.bodyNoneIdentifiable => 200
  | RunScript.bodySuccess => 200

/-- The event trace of one invocation: preflight and env-check returns
never reach the `try`; inside it, `sessions.create` precedes
`connectOverCDP`; whatever the body does, the `finally` block runs
(closing the browser iff it was assigned) before the response is
surfaced to the caller. -/
def runEvents (s : RunScript) : List RunEvent :=
  match s with
  | RunScript.preflight => [RunEvent.responded 200]
  | RunScript.envMissing => [RunEvent.responded 500]
  | RunScript.createFail => finallyEvents false ++ [RunEvent.responded 500]
  | RunScript.connectFail =>
    RunEvent.sessionCreated :: (finallyEvents false ++ [RunEvent.responded 500])
  | s =>
    RunEvent.sessionCreated :: RunEvent.connected ::
      (finallyEvents true ++ [RunEvent.responded (scriptStatus s)])

/-! ### Helper lemmas about the pagination loop -/

theorem scrapeIters_succ (fetch : ℕ → List Review) (fuel p s : ℕ) :
    scrapeIters fetch (fuel + 1) p s =
      if (fetch p).length = 0 ∧ 0 < p then
        [⟨p, s, pageUrlFor s, fetch p, false⟩]
      else
        ⟨p, s, pageUrlFor s, fetch p,
            decide (p + 1 < MAX_PAGES) && decide (0 < (fetch p).length)⟩ ::
          scrapeIters fetch fuel (p + 1) (s + (fetch p).length) := rfl

theorem scrapeIters_ne_nil (fetch : ℕ → List Review) (fuel p s : ℕ) :
    scrapeIters fetch (fuel + 1) p s ≠ [] := by
  rw [scrapeIters_succ]
  split <;> simp

theorem scrapeIters_length_le (fetch : ℕ → List Review) :
    ∀ fuel p s, (scrapeIters fetch fuel p s).length ≤ fuel := by
  intro fuel
  induction fuel with
  | zero => intro p s; simp [scrapeIters]
  | succ n ih =>
    intro p s
    rw [scrapeIters_succ]
    split
    · simp
    · simpa using ih (p + 1) (s + (fetch p).length)

theorem scrapeIters_head_state (fetch : ℕ → List Review) (fuel p s : ℕ) (a : IterRec) :
    (scrapeIters fetch fuel p s)[0]? = some a →
    a.pageNum = p ∧ a.skip = s ∧ a.url = pageUrlFor s ∧ a.records = fetch p := by
  cases fuel with
  | zero => simp [scrapeIters]
  | succ n =>
    rw [scrapeIters_succ]
    split <;> (intro h; simp at h; subst h; exact ⟨rfl, rfl, rfl, rfl⟩)

theorem scrapeIters_chain (fetch : ℕ → List Review) :
    ∀ fuel p s i a b,
      (scrapeIters fetch fuel p s)[i]? = some a →
      (scrapeIters fetch fuel p s)[i + 1]? = some b →
      b.pageNum = a.pageNum + 1 ∧ b.skip = a.skip + a.records.length := by
  intro fuel
  induction fuel with
  | zero => intro p s i a b ha; simp [scrapeIters] at ha
  | succ n ih =>
    intro p s i a b ha hb
    rw [scrapeIters_succ] at ha hb
    by_cases hbrk : (fetch p).length = 0 ∧ 0 < p
    · rw [if_pos hbrk] at hb
      rcases i with _ | j <;> simp at hb
    · rw [if_neg hbrk] at ha hb
      rcases i with _ | j
      · simp at ha hb
        obtain ⟨h1, h2, h3, h4⟩ := scrapeIters_head_state fetch n (p + 1) (s + (fetch p).length) b hb
        subst ha
        exact ⟨by rw [h1], by rw [h2]⟩
      · simp only [List.getElem?_cons_succ] at ha hb
        exact ih (p + 1) (s + (fetch p).length) j a b ha hb

theorem scrapeIters_empty_is_last (fetch : ℕ → List Review) :
    ∀ fuel p s i a,
      (scrapeIters fetch fuel p s)[i]? = some a →
      a.records.length = 0 → 0 < a.pageNum →
      (scrapeIters fetch fuel p s).length = i + 1 := by
  intro fuel
  induction fuel with
  | zero => intro p s i a ha; simp [scrapeIters] at ha
  | succ n ih =>
    intro p s i a ha hrec hpos
    rw [scrapeIters_succ] at ha ⊢
    by_cases hbrk : (fetch p).length = 0 ∧ 0 < p
    · rw [if_pos hbrk] at ha ⊢
      rcases i with _ | j
      · simp
      · simp at ha
    · rw [if_neg hbrk] at ha ⊢
      rcases i with _ | j
      · simp only [List.getElem?_cons_zero, Option.some_inj] at ha
        subst ha
        exact absurd ⟨hrec, hpos⟩ hbrk
      · simp only [List.getElem?_cons_succ] at ha
        have := ih (p + 1) (s + (fetch p).length) j a ha hrec hpos
        simp [this]

theorem scrapeIters_delay_iff (fetch : ℕ → List Review) :
    ∀ fuel p s, p + fuel = MAX_PAGES →
      ∀ i a, (scrapeIters fetch fuel p s)[i]? = some a →
        (a.delayedAfter = true ↔
          ((scrapeIters fetch fuel p s)[i + 1]?).isSome ∧ a.records ≠ []) := by
  intro fuel
  induction fuel with
  | zero => intro p s hinv i a ha; simp [scrapeIters] at ha
  | succ n ih =>
    intro p s hinv i a ha
    have hM : MAX_PAGES = 5 := rfl
    rw [scrapeIters_succ] at ha ⊢
    by_cases hbrk : (fetch p).length = 0 ∧ 0 < p
    · rw [if_pos hbrk] at ha ⊢
      rcases i with _ | j
      · simp only [List.getElem?_cons_zero, Option.some_inj] at ha
        subst ha
        have hrec : fetch p = [] := List.length_eq_zero.mp hbrk.1
        simp [hrec]
      · simp at ha
    · rw [if_neg hbrk] at ha ⊢
      rcases i with _ | j
      · simp only [List.getElem?_cons_zero, Option.some_inj] at ha
        subst ha
        simp only [List.getElem?_cons_succ]
        have hrest0 : ((scrapeIters fetch n (p + 1) (s + (fetch p).length))[0]?).isSome ↔ n ≠ 0 := by
          constructor
          · intro hs hn0
            subst hn0
            simp [scrapeIters] at hs
          · intro hn
            obtain ⟨m, rfl⟩ := Nat.exists_eq_succ_of_ne_zero hn
            have hne := scrapeIters_ne_nil fetch m (p + 1) (s + (fetch p).length)
            rw [List.getElem?_eq_getElem (List.length_pos.mpr hne)]
            rfl
        constructor
        · intro hd
          simp only [Bool.and_eq_true, decide_eq_true_eq] at hd
          exact ⟨hrest0.mpr (by omega), List.length_pos.mp hd.2⟩
        · rintro ⟨hsome, hne⟩
          have hn : n ≠ 0 := hrest0.mp hsome
          simp only [Bool.and_eq_true, decide_eq_true_eq]
          exact ⟨by omega, List.length_pos.mpr hne⟩
      · simp only [List.getElem?_cons_succ] at ha ⊢
        exact ih (p + 1) (s + (fetch p).length) (by omega) j a ha

/-! ### Concrete fixtures used by witnesses and counterexamples -/

/-- A card on which every locator missed. -/
def bareCard : Card :=
  ⟨none, none, none, none, none, none, none, none, none, none, none, none⟩

/-- A fully populated card: reviewer "Jane Doe" with a site-relative
profile link, a 5.0 rating title, and written date "Reviewed June 2024"
through the fallback path. -/
def janeCard : Card where
  reviewerTag := some ("Jane Doe", some "/Profile/janedoe")
  fallbackNameText := none
  avatarSrc := some "https://img.example/avatar.jpg"
  contributionsText := some "57 contributions"
  helpfulButton := some (some "3")
  ratingSvg := some (some "5.0 of 5 bubbles")
  reviewTitleText := some "Wonderful tour"
  tripInfoText := some "May 2024 • Friends"
  fullTextRaw := some "Great   experience\n overall"
  reviewOfTag := some ("Manhattan Mark Tours", some "/Attraction_Review-x.html")
  treSq := none
  writtenDateFallbackRaw := some "Reviewed June 2024"

/-- The record extracted from `bareCard`: everything null, no identifier. -/
def bareReview : Review := extractReview bareCard "src" "now"

/-- The record extracted from `janeCard`. -/
def janeReview : Review := extractReview janeCard "src" "now"

example : bareReview.unique_id = none := by decide
example : janeReview.reviewer_name = some "Jane Doe" := by decide
example : janeReview.written_date = some "June 2024" := by decide
example : janeReview.unique_id = some "jane_doe_june_2024" := by decide

/-! ### Claim theorems -/

/-- C1: the identifier derivation is a pure deterministic function of
the extracted reviewer name and written-date text (it is a Lean
function of exactly those two arguments): when both are non-empty it
equals the two values joined by an underscore with every run of
whitespace in the combined string replaced by a single underscore and
the result lower-cased; the identifier is absent iff the name or the
date is null or empty. -/
theorem c1_identifier_derivation (name written : Option String) :
    (uniqueIdOf name written = none ↔
      name = none ∨ name = some "" ∨ written = none ∨ written = some "")
    ∧ ∀ n w, name = some n → written = some w → n ≠ "" → w ≠ "" →
        uniqueIdOf name written =
          some (jsToLower ⟨collapseWsWith '_' ((n ++ "_" ++ w).data)⟩) := by
  constructor
  · cases name with
    | none => simp [uniqueIdOf, jsTruthy]
    | some n =>
      cases written with
      | none => simp [uniqueIdOf, jsTruthy]
      | some w =>
        by_cases hn : n = "" <;> by_cases hw : w = "" <;>
          simp [uniqueIdOf, jsTruthy, hn, hw]
  · rintro n w rfl rfl hn hw
    have hdata : (n ++ "_" ++ w).data = n.data ++ '_' :: w.data := by
      simp [String.data_append]
    simp [uniqueIdOf, jsTruthy, hn, hw, mkUniqueId, hdata]

/-- Witness for C1 at the spec's example: name "Jane Doe" and date
"June 2024" yield "jane_doe_june_2024", and a missing date yields no
identifier. -/
theorem c1_identifier_witness :
    uniqueIdOf (some "Jane Doe") (some "June 2024") = some "jane_doe_june_2024"
    ∧ uniqueIdOf (some "Jane Doe") none = none := by
  constructor
  · have h := (c1_identifier_derivation (some "Jane Doe") (some "June 2024")).2
      "Jane Doe" "June 2024" rfl rfl (by decide) (by decide)
    rw [h]
    decide
  · exact (c1_identifier_derivation (some "Jane Doe") none).1.mpr (by simp)

/-- C2: every card yields exactly one record in its page result (none
dropped at extraction time), the write batch is the sub-list of records
with a truthy identifier, a record lacking an identifier stays in the
accumulated list but is excluded from the batch, and the reported
excluded count equals the scraped total minus the batch size — which in
turn equals the number of records lacking an identifier. -/
theorem c2_unidentifiable_records (cards : List Card) (u t : String)
    (allScraped : List Review) :
    (processCards cards u t).length = cards.length
    ∧ (reviewsToUpsert allScraped).length + reviewsWithoutIdCount allScraped
        = allScraped.length
    ∧ reviewsWithoutIdCount allScraped
        = (allScraped.filter (fun r => !jsTruthy r.unique_id)).length
    ∧ (∀ card, (extractReview card u t).unique_id =
        uniqueIdOf (extractReview card u t).reviewer_name
          (extractReview card u t).written_date)
    ∧ (∀ n w, jsTruthy n = false ∨ jsTruthy w = false → uniqueIdOf n w = none)
    ∧ ∀ r, r ∈ allScraped → jsTruthy r.unique_id = false →
        r ∉ reviewsToUpsert allScraped := by
  have hsum : (reviewsToUpsert allScraped).length
      + (allScraped.filter (fun r => !jsTruthy r.unique_id)).length
      = allScraped.length := by
    simpa [reviewsToUpsert] using
      (List.length_eq_length_filter_add (l := allScraped)
        (fun r => jsTruthy r.unique_id)).symm
  refine ⟨by simp [processCards], ?_, ?_, fun _ => rfl, ?_, ?_⟩
  · have hle : (reviewsToUpsert allScraped).length ≤ allScraped.length :=
      List.length_filter_le _ _
    simp only [reviewsWithoutIdCount]
    omega
  · simp only [reviewsWithoutIdCount]
    omega
  · intro n w h
    rcases h with h | h <;> simp [uniqueIdOf, h]
  · intro r hmem hfalse hup
    rw [reviewsToUpsert, List.mem_filter] at hup
    rw [hup.2] at hfalse
    exact absurd hfalse (by simp)

/-- Witness for C2: a run that scraped one identifiable and one
unidentifiable record has batch size 1, excluded count 1, and the
unidentifiable record is not in the batch. -/
theorem c2_unidentifiable_witness :
    (processCards [janeCard, bareCard] "src" "now").length = 2
    ∧ reviewsWithoutIdCount [janeReview, bareReview] = 1
    ∧ bareReview ∉ reviewsToUpsert [janeReview, bareReview] := by
  refine ⟨(c2_unidentifiable_records [janeCard, bareCard] "src" "now" []).1.trans rfl,
    ?_, ?_⟩
  · have h := (c2_unidentifiable_records [] "" "" [janeReview, bareReview]).2.2.1
    rw [h]
    decide
  · exact (c2_unidentifiable_records [] "" "" [janeReview, bareReview]).2.2.2.2.2
      bareReview (by simp) (by decide)

/-- C3: for every fetch oracle the pagination loop performs at most
`MAX_PAGES = 5` iterations; an iteration other than the first that
yields zero records is the last one of the run; and each following
iteration's offset is the previous offset plus the number of records
the previous page returned (with the page counter advancing by one). -/
theorem c3_pagination_cap (fetch : ℕ → List Review) :
    (scrapeRun fetch).length ≤ 5
    ∧ (∀ i a, (scrapeRun fetch)[i]? = some a →
        a.records.length = 0 → 0 < a.pageNum → (scrapeRun fetch).length = i + 1)
    ∧ ∀ i a b, (scrapeRun fetch)[i]? = some a → (scrapeRun fetch)[i + 1]? = some b →
        b.skip = a.skip + a.records.length ∧ b.pageNum = a.pageNum + 1 := by
  refine ⟨scrapeIters_length_le fetch MAX_PAGES 0 0, ?_, ?_⟩
  · intro i a ha hrec hpos
    exact scrapeIters_empty_is_last fetch MAX_PAGES 0 0 i a ha hrec hpos
  · intro i a b ha hb
    have h := scrapeIters_chain fetch MAX_PAGES 0 0 i a b ha hb
    exact ⟨h.2, h.1⟩

/-- The oracle for the C3 witness: one full first page, then nothing. -/
def oneThenEmptyFetch : ℕ → List Review :=
  fun n => if n = 0 then [janeReview] else []

/-- Witness for C3: with one non-empty first page and an empty second
page the run stops after exactly two iterations (within the cap), the
empty second page being final, and the second offset equals the first
page's record count. -/
theorem c3_pagination_witness :
    (scrapeRun oneThenEmptyFetch).length ≤ 5
    ∧ (scrapeRun oneThenEmptyFetch).length = 2 := by
  refine ⟨(c3_pagination_cap oneThenEmptyFetch).1, ?_⟩
  exact (c3_pagination_cap oneThenEmptyFetch).2.1 1 ⟨1, 1, pageUrlFor 1, [], false⟩
    (by decide) (by decide) (by decide)

/-- The oracle for the C6 counterexample: an empty first page, then
full pages. -/
def emptyThenFullFetch : ℕ → List Review :=
  fun n => if n = 0 then [] else [janeReview]

/-- Counterexample to C6 as stated: a run whose first iteration is
followed by another fetch (the loop continues) yet takes no politeness
delay, because the current page returned zero records — the delay is
not unconditional on continuing. -/
theorem c6_no_delay_counterexample :
    ((scrapeRun emptyThenFullFetch)[0]?).map (fun a => a.delayedAfter) = some false
    ∧ 1 < (scrapeRun emptyThenFullFetch).length := by
  constructor
  · rfl
  · decide

/-- C6 amended: the politeness delay after an iteration fires iff the
loop continues to a further fetch **and** the current page returned at
least one record; a continuing iteration whose page was empty (only
possible for the first page) takes no delay. -/
theorem c6_delay_iff_continuing (fetch : ℕ → List Review) (i : ℕ) (a : IterRec)
    (ha : (scrapeRun fetch)[i]? = some a) :
    a.delayedAfter = true ↔
      ((scrapeRun fetch)[i + 1]?).isSome ∧ a.records ≠ [] :=
  scrapeIters_delay_iff fetch MAX_PAGES 0 0 rfl i a ha

/-- The oracle for the C6 witness: every page full. -/
def allFullFetch : ℕ → List Review := fun _ => [janeReview]

/-- Witness for C6 amended: with every page non-empty, the first
iteration both continues and delays. -/
theorem c6_delay_witness :
    (⟨0, 0, pageUrlFor 0, [janeReview], true⟩ : IterRec).delayedAfter = true
    ∧ ((scrapeRun allFullFetch)[1]?).isSome := by
  have hmem : (scrapeRun allFullFetch)[0]? =
      some ⟨0, 0, pageUrlFor 0, [janeReview], true⟩ := rfl
  have h := (c6_delay_iff_continuing allFullFetch 0
      ⟨0, 0, pageUrlFor 0, [janeReview], true⟩ hmem).mp rfl
  exact ⟨rfl, h.1⟩

/-- The oracle for the C10 counterexample: every page empty. -/
def allEmptyFetch : ℕ → List Review := fun _ => []

/-- Counterexample to C10 as stated: with the first page (and every
page) yielding zero records, the identical-URL re-fetch does **not**
repeat up to the page cap — the run performs exactly 2 iterations, not
`MAX_PAGES = 5`, because the second empty page (a non-first page with
zero records) terminates the loop. -/
theorem c10_refetch_counterexample :
    (scrapeRun allEmptyFetch).length = 2
    ∧ (scrapeRun allEmptyFetch).length ≠ MAX_PAGES := by decide

/-- C10 amended: if the first page yields zero records the loop does
not terminate there — a second iteration follows with the offset still
0 and a fetch URL identical to the first page's (the pagination token
stays empty), and no politeness delay is taken before that re-fetch;
but the repetition happens at most once: if the re-fetched page also
yields zero records the loop terminates with exactly two iterations. -/
theorem c10_empty_first_page (fetch : ℕ → List Review) (h0 : fetch 0 = []) :
    ∃ a b rest, scrapeRun fetch = a :: b :: rest
      ∧ a.pageNum = 0 ∧ a.skip = 0 ∧ a.url = pageUrlFor 0 ∧ a.delayedAfter = false
      ∧ b.pageNum = 1 ∧ b.skip = 0 ∧ b.url = a.url
      ∧ (fetch 1 = [] → scrapeRun fetch = [a, b]) := by
  have h1 : scrapeRun fetch =
      ⟨0, 0, pageUrlFor 0, [], false⟩ :: scrapeIters fetch 4 1 0 := by
    show scrapeIters fetch (4 + 1) 0 0 = _
    rw [scrapeIters_succ, h0]
    rfl
  by_cases h1e : fetch 1 = []
  · have h2 : scrapeIters fetch 4 1 0 = [⟨1, 0, pageUrlFor 0, [], false⟩] := by
      show scrapeIters fetch (3 + 1) 1 0 = _
      rw [scrapeIters_succ, h1e]
      rfl
    exact ⟨⟨0, 0, pageUrlFor 0, [], false⟩, ⟨1, 0, pageUrlFor 0, [], false⟩, [],
      by rw [h1, h2], rfl, rfl, rfl, rfl, rfl, rfl, rfl, fun _ => by rw [h1, h2]⟩
  · have hcond : ¬((fetch 1).length = 0 ∧ 0 < 1) := by
      intro hc
      exact h1e (List.length_eq_zero.mp hc.1)
    have h2 : scrapeIters fetch 4 1 0 =
        ⟨1, 0, pageUrlFor 0, fetch 1,
            decide (1 + 1 < MAX_PAGES) && decide (0 < (fetch 1).length)⟩ ::
          scrapeIters fetch 3 2 (0 + (fetch 1).length) := by
      show scrapeIters fetch (3 + 1) 1 0 = _
      rw [scrapeIters_succ, if_neg hcond]
    exact ⟨⟨0, 0, pageUrlFor 0, [], false⟩,
      ⟨1, 0, pageUrlFor 0, fetch 1,
          decide (1 + 1 < MAX_PAGES) && decide (0 < (fetch 1).length)⟩,
      scrapeIters fetch 3 2 (0 + (fetch 1).length),
      by rw [h1, h2], rfl, rfl, rfl, rfl, rfl, rfl, rfl, fun hc => absurd hc h1e⟩

/-- Witness for C10 amended: with all pages empty, the second iteration
exists, re-uses offset 0, and the run is exactly those two iterations. -/
theorem c10_refetch_witness :
    ((scrapeRun allEmptyFetch)[1]?).map (fun b => b.skip) = some 0
    ∧ ((scrapeRun allEmptyFetch)[1]?).map (fun b => b.url) =
        ((scrapeRun allEmptyFetch)[0]?).map (fun a => a.url) := by
  obtain ⟨a, b, rest, hab, _, haskip, haurl, _, _, hbskip, hburl, himp⟩ :=
    c10_empty_first_page allEmptyFetch rfl
  have h2 := himp rfl
  rw [h2]
  simp [hbskip, hburl]

/-- Counterexample to C4 as stated: an empty `href` attribute does not
start with `"/"`, yet it is not stored unchanged — the JavaScript
truthiness check maps it to `null`. -/
theorem c4_empty_href_counterexample :
    startsWithSlash "" = false
    ∧ jsHrefNormalize (some "") = none
    ∧ jsHrefNormalize (some "") ≠ some "" := by decide

/-- C4 amended: for both the reviewer profile link and the
reviewed-subject link, an href starting with `"/"` is stored as the
fixed base origin concatenated with the href, a **non-empty** href not
starting with `"/"` is stored unchanged, and a missing or empty href is
stored as null; both links go through the same rewriting expression. -/
theorem c4_link_normalization (card : Card) (u t : String) (h : String) :
    (startsWithSlash h = true →
      jsHrefNormalize (some h) = some (TRIPADVISOR_BASE_URL ++ h))
    ∧ (h ≠ "" → startsWithSlash h = false → jsHrefNormalize (some h) = some h)
    ∧ jsHrefNormalize (some "") = none
    ∧ jsHrefNormalize none = none
    ∧ (∀ txt href, card.reviewerTag = some (txt, href) →
        (extractReview card u t).reviewer_profile = jsHrefNormalize href)
    ∧ (∀ txt href, card.reviewOfTag = some (txt, href) →
        (extractReview card u t).review_of_link = jsHrefNormalize href) := by
  refine ⟨?_, ?_, rfl, rfl, ?_, ?_⟩
  · intro hs
    have hne : h ≠ "" := by
      intro hc
      rw [hc] at hs
      exact absurd hs (by decide)
    simp [jsHrefNormalize, hne, hs]
  · intro hne hs
    simp [jsHrefNormalize, hne, hs]
  · intro txt href hcard
    simp [extractReview, hcard]
  · intro txt href hcard
    simp [extractReview, hcard]

/-- Witness for C4 amended at the spec's example: the relative href
`/Profile/janedoe` is rewritten onto the base origin, and an absolute
href passes through unchanged. -/
theorem c4_link_witness :
    jsHrefNormalize (some "/Profile/janedoe") =
      some "https://www.tripadvisor.com/Profile/janedoe"
    ∧ jsHrefNormalize (some "https://elsewhere.example/x") =
        some "https://elsewhere.example/x" := by
  constructor
  · have h := (c4_link_normalization bareCard "u" "t" "/Profile/janedoe").1 (by decide)
    rw [h]
    decide
  · exact (c4_link_normalization bareCard "u" "t" "https://elsewhere.example/x").2.1
      (by decide) (by decide)

/-- Counterexample to C5 as stated: the send-email function's success
response to a non-preflight request is HTTP 200 with the plain-text
body "Email sent successfully" — not JSON carrying a message or error
field. -/
theorem c5_plaintext_counterexample :
    ("POST" : String) ≠ "OPTIONS"
    ∧ (sendEmailHandler "POST" EmailOutcome.ok).status = 200
    ∧ (sendEmailHandler "POST" EmailOutcome.ok).body = Body.text "Email sent successfully"
    ∧ isJsonMessageOrError (sendEmailHandler "POST" EmailOutcome.ok).body = false := by
  decide

/-- C5 amended: for both functions every non-preflight response has
status 200 (including the no-results cases) or 500; the scrape
function's bodies are JSON with a message or error field, while the
send-email function's bodies are plain text; a preflight OPTIONS
request gets a permissive CORS answer with no body from either
function. -/
theorem c5_response_shape (method : String) (o : ScrapeOutcome) (e : EmailOutcome)
    (hm : method ≠ "OPTIONS") :
    ((scrapeHandler method o).status = 200 ∨ (scrapeHandler method o).status = 500)
    ∧ isJsonMessageOrError (scrapeHandler method o).body = true
    ∧ ((sendEmailHandler method e).status = 200 ∨ (sendEmailHandler method e).status = 500)
    ∧ (∃ s, (sendEmailHandler method e).body = Body.text s)
    ∧ (scrapeHandler "OPTIONS" o).body = Body.empty
    ∧ (sendEmailHandler "OPTIONS" e).body = Body.empty
    ∧ ("Access-Control-Allow-Origin", "*") ∈ (scrapeHandler "OPTIONS" o).headers
    ∧ ("Access-Control-Allow-Origin", "*") ∈ (sendEmailHandler "OPTIONS" e).headers := by
  refine ⟨?_, ?_, ?_, ?_, by simp [scrapeHandler], by simp [sendEmailHandler],
    by simp [scrapeHandler], by simp [sendEmailHandler]⟩
  · cases o <;> simp [scrapeHandler, hm]
  · cases o <;> simp [scrapeHandler, hm, isJsonMessageOrError]
  · cases e <;> simp [sendEmailHandler, hm]
  · cases e <;> simp [sendEmailHandler, hm]

/-- Witness for C5 amended at a concrete non-preflight request: the
scrape function's no-results response is a 200 JSON message, and the
send-email failure response is a 500 text body. -/
theorem c5_response_witness :
    isJsonMessageOrError (scrapeHandler "POST" ScrapeOutcome.noReviews).body = true
    ∧ ((sendEmailHandler "POST" EmailOutcome.thrown).status = 200
        ∨ (sendEmailHandler "POST" EmailOutcome.thrown).status = 500) := by
  have h := c5_response_shape "POST" ScrapeOutcome.noReviews EmailOutcome.thrown
    (by decide)
  exact ⟨h.2.1, h.2.2.1⟩

/-- Counterexample to C7 as stated: the fallback text
`"a Reviewed b"` has no case-insensitive "Reviewed " or "Written "
prefix, yet the fallback is used — the regex `/Reviewed |Written /i`
matches anywhere in the text, and the first occurrence (not a prefix)
is removed. -/
theorem c7_substring_counterexample :
    fallbackWrittenDate (some "a Reviewed b") = some "a b"
    ∧ ciHasPre "reviewed ".data "a Reviewed b".data = false
    ∧ ciHasPre "written ".data "a Reviewed b".data = false := by decide

/-- If the lower-cased text starts with `"written "` it cannot also
start with `"reviewed "` (the first characters differ). -/
theorem ciRev_false_of_wri (c : Char) (cs : List Char)
    (h : ciHasPre "written ".data (c :: cs) = true) :
    ciHasPre "reviewed ".data (c :: cs) = false := by
  have h2 : (('w' == jsCharLower c) && ciHasPre "ritten ".data cs) = true := h
  simp only [Bool.and_eq_true, beq_iff_eq] at h2
  have hc : 'w' = jsCharLower c := h2.1
  show (('r' == jsCharLower c) && ciHasPre "eviewed ".data cs) = false
  rw [← hc]
  rw [show ('r' == 'w') = false from by decide, Bool.false_and]

/-- C7 amended: the fallback text element is used iff it is non-null,
non-empty and **contains** a case-insensitive occurrence of
"Reviewed " or "Written " (the regex is not anchored to a prefix); the
written date is the text with the first such occurrence removed, then
trimmed — which for a text that does start with the matched word means
stripping that prefix; and in the fallback path the disclaimer field
is always null. -/
theorem c7_written_date_fallback (txt : Option String) (t : String) (raw : Option String) :
    ((fallbackWrittenDate txt).isSome ↔
      ∃ s, txt = some s ∧ s ≠ "" ∧ (removeFirstRW s.data).isSome)
    ∧ (ciHasPre "reviewed ".data t.data = true →
        fallbackWrittenDate (some t) = some (jsTrim ⟨t.data.drop 9⟩))
    ∧ (ciHasPre "written ".data t.data = true →
        fallbackWrittenDate (some t) = some (jsTrim ⟨t.data.drop 8⟩))
    ∧ writtenDateDisclaimerOf none raw =
        (fallbackWrittenDate (getTextPost raw), none) := by
  refine ⟨?_, ?_, ?_, rfl⟩
  · cases txt with
    | none => simp [fallbackWrittenDate]
    | some s =>
      by_cases hs : s = ""
      · simp [fallbackWrittenDate, hs]
      · cases hrm : removeFirstRW s.data <;>
          simp [fallbackWrittenDate, hs, hrm]
  · intro h
    have hne : t ≠ "" := by
      intro hc
      rw [hc] at h
      exact absurd h (by decide)
    cases ht : t.data with
    | nil => rw [ht] at h; exact absurd h (by decide)
    | cons c cs =>
      rw [ht] at h
      have hat : rwAt (c :: cs) = some ((c :: cs).drop 9) := by
        simp [rwAt, h]
      have hr : removeFirstRW (c :: cs) = some ((c :: cs).drop 9) := by
        simp [removeFirstRW, hat]
      simp [fallbackWrittenDate, hne, ht, hr]
  · intro h
    have hne : t ≠ "" := by
      intro hc
      rw [hc] at h
      exact absurd h (by decide)
    cases ht : t.data with
    | nil => rw [ht] at h; exact absurd h (by decide)
    | cons c cs =>
      rw [ht] at h
      have hrev : ciHasPre "reviewed ".data (c :: cs) = false := ciRev_false_of_wri c cs h
      have hat : rwAt (c :: cs) = some ((c :: cs).drop 8) := by
        simp [rwAt, h, hrev]
      have hr : removeFirstRW (c :: cs) = some ((c :: cs).drop 8) := by
        simp [removeFirstRW, hat]
      simp [fallbackWrittenDate, hne, ht, hr]

/-- Witness for C7 amended at the spec's example: "Reviewed June 2024"
has the prefix, the stripped date is "June 2024", and the fallback
path's disclaimer is null. -/
theorem c7_fallback_witness :
    fallbackWrittenDate (some "Reviewed June 2024") =
      some (jsTrim ⟨"Reviewed June 2024".data.drop 9⟩)
    ∧ fallbackWrittenDate (some "Reviewed June 2024") = some "June 2024"
    ∧ (writtenDateDisclaimerOf none (some "Reviewed June 2024")).2 = none := by
  refine ⟨(c7_written_date_fallback none "Reviewed June 2024" none).2.1 (by decide),
    by decide, ?_⟩
  rw [(c7_written_date_fallback none "x" (some "Reviewed June 2024")).2.2.2]

/-- Whether a digits-and-dots string has the leading shape `parseFloat`
accepts: it starts with a digit, or with a dot followed by a digit. -/
def hasLeadingDigitShape : List Char → Bool
  | [] => false
  | c :: cs =>
    c.isDigit ||
      ((c == '.') &&
        (match cs with
         | d :: _ => d.isDigit
         | [] => false))

/-- Counterexample to C8 as stated: for a rating title `". of 5"` the
regex matches with capture `"."`, which fails to parse as a number —
but the rating field is then `NaN`, not null. -/
theorem c8_nan_counterexample :
    ratingOf (some (some ". of 5")) = some JsFloat.nan
    ∧ some JsFloat.nan ≠ (none : Option JsFloat) := by
  exact ⟨rfl, by simp⟩

/-- C8 amended: rating extraction is a total function (never raises);
the rating is null exactly when the svg element is absent, its title
text is absent or empty, or the title fails to match the
`<number> of` pattern; when the pattern matches, the rating is
`parseFloat` of the capture — the parsed value if the capture starts
with a digit or a dot-digit, and `NaN` (not null) otherwise. -/
theorem c8_rating_extraction (raw : Option String) (t : String) (cap : List Char) :
    ratingOf none = none
    ∧ (getTextPost raw = none → ratingOf (some raw) = none)
    ∧ (getTextPost raw = some t → findRatingCapture t.data = none →
        ratingOf (some raw) = none)
    ∧ (getTextPost raw = some t → findRatingCapture t.data = some cap →
        ratingOf (some raw) = some (jsParseFloatDD cap))
    ∧ (jsParseFloatDD cap = JsFloat.nan ↔ parseMantissa cap = none)
    ∧ (parseMantissa cap = none ↔ hasLeadingDigitShape cap = false) := by
  refine ⟨rfl, ?_, ?_, ?_, ?_, ?_⟩
  · intro h
    simp [ratingOf, h]
  · intro h1 h2
    simp [ratingOf, h1, h2]
  · intro h1 h2
    simp [ratingOf, h1, h2]
  · cases hm : parseMantissa cap with
    | none => simp [jsParseFloatDD, hm]
    | some p =>
      cases p with
      | mk n k => simp [jsParseFloatDD, hm]
  · cases cap with
    | nil => simp [parseMantissa, hasLeadingDigitShape]
    | cons c cs =>
      by_cases hd : c.isDigit
      · simp [parseMantissa, hasLeadingDigitShape, hd, List.takeWhile_cons]
      · by_cases hdot : c = '.'
        · subst hdot
          cases cs with
          | nil => simp [parseMantissa, hasLeadingDigitShape, hd]
          | cons d ds =>
            by_cases hdd : d.isDigit
            · simp [parseMantissa, hasLeadingDigitShape, hd, hdd, List.takeWhile_cons]
            · simp [parseMantissa, hasLeadingDigitShape, hd, hdd, List.takeWhile_cons]
        · simp [parseMantissa, hasLeadingDigitShape, hd, hdot, List.takeWhile_cons]

/-- Witness for C8 amended: the title "4.5 of 5 bubbles" produces the
parsed capture `4.5`, and the capture `"."` has no leading digit shape
(so it parses to NaN). -/
theorem c8_rating_witness :
    ratingOf (some (some "4.5 of 5 bubbles")) = some (jsParseFloatDD "4.5".data)
    ∧ parseMantissa ".".data = none := by
  refine ⟨(c8_rating_extraction (some "4.5 of 5 bubbles")
      "4.5 of 5 bubbles" "4.5".data).2.2.2.1 (by decide) (by decide), ?_⟩
  exact (c8_rating_extraction none "" ".".data).2.2.2.2.2.mpr (by decide)

/-- C9: on every invocation whose script reaches a successful browser
connection — normal completion, the no-results early returns, and
every failure thrown inside the `try` (navigation or sink write) — the
Playwright browser handle is closed exactly once, and the close happens
before the response or error is surfaced; and no invocation ever closes
it more than once. -/
theorem c9_session_release (s : RunScript) :
    (runEvents s).count RunEvent.browserClosed ≤ 1
    ∧ (RunEvent.connected ∈ runEvents s →
        (runEvents s).count RunEvent.browserClosed = 1
        ∧ (runEvents s).getLast? = some (RunEvent.responded (scriptStatus s))
        ∧ RunEvent.browserClosed ∈ (runEvents s).dropLast) := by
  cases s <;> exact ⟨by decide, by decide⟩

/-- Witness for C9 at the success path: exactly one close event,
occurring before the 200 response. -/
theorem c9_session_witness :
    (runEvents RunScript.bodySuccess).count RunEvent.browserClosed = 1
    ∧ (runEvents RunScript.bodySuccess).getLast? = some (RunEvent.responded 200)
    ∧ RunEvent.browserClosed ∈ (runEvents RunScript.bodySuccess).dropLast := by
  exact (c9_session_release RunScript.bodySuccess).2 (by decide)
